import Mathlib

/-!
Shallow embedding of the client-side state logic of the StableMonitor
frontend: the `useStableMonitor` React hook and the balance rendering of
`StableMonitorDemo`, together with theorems about its staleness guards,
entry guards, busy-flag discipline and the numeric two's-complement fix-up.

Modelling conventions:
* A React state setter and its paired mutable ref that the source always
  writes together (`isIssuingRef` with `setIsIssuing`, and so on for the
  other busy flags) are one field of `HookState`.  `clearBalance` and
  `clearBalanceRef` are kept as two fields because the source reads them
  independently, even though it always writes them together.
* Each hook operation is split into its synchronous entry (the guard
  checks, busy-flag set and initial message that run before the first
  `await`) and its asynchronous run.  External collaborators (RPC node,
  wallet, FHEVM relayer) are oracles: a structure holding the outcome of
  every external call the run awaits, with `Except` for calls that may
  reject.  The run is a pure function of the oracle.
* The `isStale()` closures of the source compare a captured contract
  address against the current value of `stableMonitorRef` and invoke the
  externally supplied `sameChain` / `sameSigner` ref functions; a `Probe`
  records what those three reads return at one staleness check point.
* Handles, addresses and transaction hashes are `String`; decrypted
  plaintexts are `ClearVal` (the hook receives `bigint` or `boolean`).
-/

namespace StableMonitor

/-- A decrypted plaintext as the hook receives it from `userDecrypt`:
a `bigint` for `euint32` handles or a `boolean` for `ebool` handles. -/
inductive ClearVal where
  | int (n : Int)
  | bool (b : Bool)
  deriving Repr, BEq, DecidableEq

/-- The `ClearValueType` of the hook: a decrypted value together with the
handle it was decrypted from. -/
structure ClearValueType where
  handle : String
  clear : ClearVal
  deriving Repr, BEq, DecidableEq

/-- String rendering of a clear value, as JavaScript string coercion of a
`bigint` or `boolean` produces it. -/
def showClear : ClearVal → String
  | ClearVal.int n => toString n
  | ClearVal.bool b => if b then "true" else "false"

/-- The mutable state of one mounted `useStableMonitor` hook. -/
structure HookState where
  balanceHandle : Option String
  totalSupplyHandle : Option String
  riskThresholdHandle : Option String
  riskFlagHandle : Option String
  clearBalance : Option ClearValueType
  clearBalanceRef : Option ClearValueType
  clearRiskThreshold : Option ClearValueType
  clearRiskFlag : Option ClearValueType
  isRefreshing : Bool
  isDecrypting : Bool
  isIssuing : Bool
  isTransferring : Bool
  isCheckingRisk : Bool
  isUpdatingThreshold : Bool
  message : String
  deriving Repr, DecidableEq

/-- The external inputs of the hook that its entry guards test for
presence: contract info resolved from the chain id, the FHEVM instance,
the signer, the read-only provider and the connected account. -/
structure Deps where
  contractAddress : Option String
  chainId : Option Nat
  hasInstance : Bool
  hasSigner : Bool
  hasReadonlyProvider : Bool
  userAddress : Option String
  deriving Repr, DecidableEq

/-- What one staleness check point observes: the contract address held by
`stableMonitorRef.current` at that instant, and the results of the
external `sameChain.current` / `sameSigner.current` probes applied to the
captured chain id and signer. -/
structure Probe where
  refAddress : Option String
  sameChain : Bool
  sameSigner : Bool
  deriving Repr, DecidableEq

/-- The `isStale()` closure shared by decrypt, issue, transfer and
update-threshold: captured contract address no longer the current one, or
the chain changed, or the signer changed. -/
def isStale (capturedAddr : String) (p : Probe) : Bool :=
  p.refAddress != some capturedAddr || !p.sameChain || !p.sameSigner

/-- The `ethers.ZeroHash` sentinel standing for an uninitialized
(encrypted-zero) handle. -/
def zeroHash : String :=
  "0x0000000000000000000000000000000000000000000000000000000000000000"

/-! The balance refresh (`refreshBalance`). -/

/-- The three handles fetched in parallel by `refreshBalance`
(`getBalance`, `getTotalSupply`, `getRiskThreshold`), already hex-encoded
as the hook normalizes them. -/
structure FetchedHandles where
  balance : String
  totalSupply : String
  riskThreshold : String
  deriving Repr, DecidableEq

/-- Synchronous part of `refreshBalance`: the guards, the busy-flag set
and the capture of the chain id and contract address.  Returns the new
state and, when the fetch is actually started, the captured contract
address. -/
def refreshBalance (deps : Deps) (s : HookState) : HookState × Option String :=
  if s.isRefreshing || deps.userAddress.isNone then (s, none)
  else
    match deps.chainId, deps.contractAddress, deps.hasReadonlyProvider with
    | some _, some addr, true => ({ s with isRefreshing := true }, some addr)
    | _, _, _ => ({ s with balanceHandle := none }, none)

/-- Completion of the `refreshBalance` fetch: the `.then` branch commits
the three handles only when the chain probe still matches and the captured
contract address equals the current ref; the `.catch` branch surfaces a
message.  Both branches clear the busy flag. -/
def refreshBalanceSettle (capturedAddr : String) (p : Probe)
    (res : Except String FetchedHandles) (s : HookState) : HookState :=
  match res with
  | Except.ok h =>
    if p.sameChain ∧ p.refAddress = some capturedAddr then
      { s with balanceHandle := some h.balance,
               totalSupplyHandle := some h.totalSupply,
               riskThresholdHandle := some h.riskThreshold,
               isRefreshing := false }
    else
      { s with isRefreshing := false }
  | Except.error e =>
      { s with message := "Failed to fetch balance: " ++ e, isRefreshing := false }

/-! The balance decryption (`decryptBalance`). -/

/-- The values `decryptBalance` captures before suspending: the contract
address and the balance handle. -/
structure DecSpec where
  addr : String
  handle : String
  deriving Repr, DecidableEq

/-- Synchronous part of `decryptBalance`: the guard chain and, for the
`ethers.ZeroHash` sentinel, the short-circuit that caches clear 0 without
any external call.  Returns the new state and, when the asynchronous
decryption is actually started, the captured spec. -/
def decryptBalance (deps : Deps) (s : HookState) : HookState × Option DecSpec :=
  if s.isRefreshing || s.isDecrypting || s.balanceHandle.isNone then (s, none)
  else
    match deps.contractAddress, s.balanceHandle with
    | some addr, some h =>
      if !deps.hasInstance || !deps.hasSigner then (s, none)
      else if (match s.clearBalanceRef with
               | some cv => h == cv.handle
               | none => false) then (s, none)
      else if h == zeroHash then
        ({ s with clearBalance := some { handle := h, clear := ClearVal.int 0 },
                  clearBalanceRef := some { handle := h, clear := ClearVal.int 0 } },
         none)
      else
        ({ s with isDecrypting := true, message := "Start decrypting balance..." },
         some { addr := addr, handle := h })
    | _, _ => (s, none)

/-- The two's-complement fix-up applied to the decrypted balance: a
numeric value above the `int32` maximum and within the `uint32` range is
reinterpreted as negative; every other value is kept unchanged.  (The
source converts a `bigint` to a JavaScript number first; for the `uint32`
range this conversion is exact.) -/
def fixupDecryptedValue : ClearVal → ClearVal
  | ClearVal.int n =>
      if 2147483647 < n ∧ n ≤ 4294967295 then ClearVal.int (n - 4294967296)
      else ClearVal.int n
  | v => v

/-- Outcomes of the external calls awaited by the `decryptBalance` run:
the signature load (which may reject, or resolve to `null`), the staleness
probe after it, the `userDecrypt` round trip (which may reject) and the
staleness probe after that. -/
structure DecOracle where
  loadOrSign : Except String (Option Unit)
  probeAfterSig : Probe
  userDecrypt : Except String ClearVal
  probeAfterDecrypt : Probe

/-- Asynchronous run of `decryptBalance`.  The source wraps the body in
`try ... finally` with no `catch`, so a rejection of an awaited call
resets the busy flag in `finally` and then escapes `run()` as an
unhandled rejection: the second component carries that escaped error. -/
def decryptBalanceRun (spec : DecSpec) (o : DecOracle) (s : HookState) :
    HookState × Option String :=
  match o.loadOrSign with
  | Except.error e => ({ s with isDecrypting := false }, some e)
  | Except.ok none =>
      ({ s with message := "Unable to build FHEVM decryption signature",
                isDecrypting := false }, none)
  | Except.ok (some _) =>
    if isStale spec.addr o.probeAfterSig then
      ({ s with message := "Ignore FHEVM decryption", isDecrypting := false }, none)
    else
      let s1 := { s with message := "Calling FHEVM userDecrypt..." }
      match o.userDecrypt with
      | Except.error e => ({ s1 with isDecrypting := false }, some e)
      | Except.ok v =>
        let s2 := { s1 with message := "FHEVM userDecrypt completed!" }
        if isStale spec.addr o.probeAfterDecrypt then
          ({ s2 with message := "Ignore FHEVM decryption", isDecrypting := false }, none)
        else
          ({ s2 with clearBalance := some { handle := spec.handle,
                                            clear := fixupDecryptedValue v },
                     clearBalanceRef := some { handle := spec.handle,
                                               clear := fixupDecryptedValue v },
                     message := "Balance decrypted: " ++ showClear (fixupDecryptedValue v),
                     isDecrypting := false }, none)

/-! The threshold decryption (`decryptRiskThreshold`). -/

/-- Outcomes of the external calls awaited by the `decryptRiskThreshold`
run: the ACL-granting transaction, the staleness probe after it, the
handle fetch, the signature load, the staleness probe after it, and the
`userDecrypt` round trip. -/
structure ThreshOracle where
  grantTx : Except String Unit
  probeAfterGrant : Probe
  fetchHandle : Except String String
  loadOrSign : Except String (Option Unit)
  probeAfterSig : Probe
  userDecrypt : Except String ClearVal

/-- Synchronous part of `decryptRiskThreshold`: guards and busy-flag set.
Returns the new state and, when started, the captured contract address. -/
def decryptRiskThreshold (deps : Deps) (s : HookState) : HookState × Option String :=
  if s.isRefreshing || s.isDecrypting || s.riskThresholdHandle.isNone then (s, none)
  else
    match deps.contractAddress with
    | some addr =>
      if !deps.hasInstance || !deps.hasSigner then (s, none)
      else
        ({ s with isDecrypting := true,
                  message := "Start authorizing and decrypting risk threshold..." },
         some addr)
    | none => (s, none)

/-- Asynchronous run of `decryptRiskThreshold`: unlike `decryptBalance`
this body has a `catch` converting every rejection to a message. -/
def decryptRiskThresholdRun (addr : String) (o : ThreshOracle) (s : HookState) :
    HookState :=
  match o.grantTx with
  | Except.error e =>
      { s with message := "Decrypt risk threshold failed: " ++ e, isDecrypting := false }
  | Except.ok _ =>
    if isStale addr o.probeAfterGrant then
      { s with message := "Ignore threshold decrypt", isDecrypting := false }
    else
      match o.fetchHandle with
      | Except.error e =>
          { s with message := "Decrypt risk threshold failed: " ++ e,
                   isDecrypting := false }
      | Except.ok h =>
        match o.loadOrSign with
        | Except.error e =>
            { s with message := "Decrypt risk threshold failed: " ++ e,
                     isDecrypting := false }
        | Except.ok none =>
            { s with message := "Unable to build FHEVM decryption signature for threshold",
                     isDecrypting := false }
        | Except.ok (some _) =>
          if isStale addr o.probeAfterSig then
            { s with message := "Ignore threshold decrypt", isDecrypting := false }
          else
            match o.userDecrypt with
            | Except.error e =>
                { s with message := "Decrypt risk threshold failed: " ++ e,
                         isDecrypting := false }
            | Except.ok v =>
                { s with clearRiskThreshold := some { handle := h, clear := v },
                         message := "Risk threshold decrypted", isDecrypting := false }

/-! The mutating operations (`issue`, `transfer`, `updateRiskThreshold`). -/

/-- External interactions a mutating-operation run performs, in order:
the fixed 100 ms delay, the input encryption, the transaction submission,
the receipt wait, and (when reached) the triggered balance refresh. -/
inductive ExtCall where
  | delay (ms : Nat)
  | encryptInput
  | submitTx
  | waitTx
  | refresh
  deriving Repr, BEq, DecidableEq

/-- Outcomes of the external calls awaited by a mutating-operation run:
the input encryption (may reject), the staleness probe after it, the
transaction submission (resolves to the transaction hash or rejects), the
receipt wait (resolves to `receipt?.status`, with `none` standing for a
null receipt, or rejects) and the staleness probe after confirmation. -/
structure MutOracle where
  encrypt : Except String Unit
  probeAfterEncrypt : Probe
  sendTx : Except String String
  waitReceipt : Except String (Option Nat)
  probeAfterWait : Probe

/-- Rendering of `receipt?.status` in the completion messages. -/
def showStatus : Option Nat → String
  | none => "undefined"
  | some n => toString n

/-- Synchronous part of `issue`: re-entry guard, dependency and amount
guard, busy-flag set and start message.  Returns the new state and, when
the run is started, the captured contract address. -/
def issue (deps : Deps) (toAddr : String) (amount : Int) (s : HookState) :
    HookState × Option String :=
  if s.isRefreshing || s.isIssuing then (s, none)
  else
    match deps.contractAddress with
    | some addr =>
      if !deps.hasInstance ∨ !deps.hasSigner ∨ amount ≤ 0 then (s, none)
      else
        ({ s with isIssuing := true,
                  message := "Issuing " ++ toString amount ++ " tokens to " ++
                    toAddr ++ "..." },
         some addr)
    | none => (s, none)

/-- Asynchronous run of `issue`: delay, encrypt, staleness check, submit,
wait, completion message, staleness check, refresh trigger; every
rejection is caught and converted to a message, and `finally` clears the
busy flag.  The second component lists the external interactions actually
performed. -/
def issueRun (addr : String) (o : MutOracle) (s : HookState) :
    HookState × List ExtCall :=
  let c0 : List ExtCall := [ExtCall.delay 100, ExtCall.encryptInput]
  match o.encrypt with
  | Except.error e => ({ s with message := "Issue failed: " ++ e, isIssuing := false }, c0)
  | Except.ok _ =>
    if isStale addr o.probeAfterEncrypt then
      ({ s with message := "Ignore issue", isIssuing := false }, c0)
    else
      let s1 := { s with message := "Calling issue..." }
      let c1 := c0 ++ [ExtCall.submitTx]
      match o.sendTx with
      | Except.error e =>
          ({ s1 with message := "Issue failed: " ++ e, isIssuing := false }, c1)
      | Except.ok txHash =>
        let s2 := { s1 with message := "Waiting for tx:" ++ txHash ++ "..." }
        let c2 := c1 ++ [ExtCall.waitTx]
        match o.waitReceipt with
        | Except.error e =>
            ({ s2 with message := "Issue failed: " ++ e, isIssuing := false }, c2)
        | Except.ok st =>
          let s3 := { s2 with message := "Issue completed status=" ++ showStatus st }
          if isStale addr o.probeAfterWait then
            ({ s3 with message := "Ignore issue", isIssuing := false }, c2)
          else
            ({ s3 with isIssuing := false }, c2 ++ [ExtCall.refresh])

/-- Synchronous part of `transfer`: same shape as `issue` with its own
busy flag and messages. -/
def transfer (deps : Deps) (toAddr : String) (amount : Int) (s : HookState) :
    HookState × Option String :=
  if s.isRefreshing || s.isTransferring then (s, none)
  else
    match deps.contractAddress with
    | some addr =>
      if !deps.hasInstance ∨ !deps.hasSigner ∨ amount ≤ 0 then (s, none)
      else
        ({ s with isTransferring := true,
                  message := "Transferring " ++ toString amount ++ " tokens to " ++
                    toAddr ++ "..." },
         some addr)
    | none => (s, none)

/-- Asynchronous run of `transfer`. -/
def transferRun (addr : String) (o : MutOracle) (s : HookState) :
    HookState × List ExtCall :=
  let c0 : List ExtCall := [ExtCall.delay 100, ExtCall.encryptInput]
  match o.encrypt with
  | Except.error e =>
      ({ s with message := "Transfer failed: " ++ e, isTransferring := false }, c0)
  | Except.ok _ =>
    if isStale addr o.probeAfterEncrypt then
      ({ s with message := "Ignore transfer", isTransferring := false }, c0)
    else
      let s1 := { s with message := "Calling transfer..." }
      let c1 := c0 ++ [ExtCall.submitTx]
      match o.sendTx with
      | Except.error e =>
          ({ s1 with message := "Transfer failed: " ++ e, isTransferring := false }, c1)
      | Except.ok txHash =>
        let s2 := { s1 with message := "Waiting for tx:" ++ txHash ++ "..." }
        let c2 := c1 ++ [ExtCall.waitTx]
        match o.waitReceipt with
        | Except.error e =>
            ({ s2 with message := "Transfer failed: " ++ e, isTransferring := false }, c2)
        | Except.ok st =>
          let s3 := { s2 with message := "Transfer completed status=" ++ showStatus st }
          if isStale addr o.probeAfterWait then
            ({ s3 with message := "Ignore transfer", isTransferring := false }, c2)
          else
            ({ s3 with isTransferring := false }, c2 ++ [ExtCall.refresh])

/-- Synchronous part of `updateRiskThreshold`: note that the amount guard
rejects only strictly negative thresholds, so 0 is accepted. -/
def updateRiskThreshold (deps : Deps) (newThreshold : Int) (s : HookState) :
    HookState × Option String :=
  if s.isRefreshing || s.isUpdatingThreshold then (s, none)
  else
    match deps.contractAddress with
    | some addr =>
      if !deps.hasInstance ∨ !deps.hasSigner ∨ newThreshold < 0 then (s, none)
      else
        ({ s with isUpdatingThreshold := true,
                  message := "Updating risk threshold to " ++ toString newThreshold ++
                    "..." },
         some addr)
    | none => (s, none)

/-- Asynchronous run of `updateRiskThreshold`. -/
def updateRiskThresholdRun (addr : String) (o : MutOracle) (s : HookState) :
    HookState × List ExtCall :=
  let c0 : List ExtCall := [ExtCall.delay 100, ExtCall.encryptInput]
  match o.encrypt with
  | Except.error e =>
      ({ s with message := "Update threshold failed: " ++ e,
                isUpdatingThreshold := false }, c0)
  | Except.ok _ =>
    if isStale addr o.probeAfterEncrypt then
      ({ s with message := "Ignore updateRiskThreshold", isUpdatingThreshold := false }, c0)
    else
      let s1 := { s with message := "Calling updateRiskThreshold..." }
      let c1 := c0 ++ [ExtCall.submitTx]
      match o.sendTx with
      | Except.error e =>
          ({ s1 with message := "Update threshold failed: " ++ e,
                     isUpdatingThreshold := false }, c1)
      | Except.ok txHash =>
        let s2 := { s1 with message := "Waiting for tx:" ++ txHash ++ "..." }
        let c2 := c1 ++ [ExtCall.waitTx]
        match o.waitReceipt with
        | Except.error e =>
            ({ s2 with message := "Update threshold failed: " ++ e,
                       isUpdatingThreshold := false }, c2)
        | Except.ok st =>
          let s3 := { s2 with message := "Update threshold completed status=" ++
                        showStatus st }
          if isStale addr o.probeAfterWait then
            ({ s3 with message := "Ignore updateRiskThreshold",
                       isUpdatingThreshold := false }, c2)
          else
            ({ s3 with isUpdatingThreshold := false }, c2 ++ [ExtCall.refresh])

/-! The risk check (`checkRisk`). -/

/-- One receipt log entry as `checkRisk` inspects it: the emitting
address and, when `iface.parseLog` succeeds, the parsed event name and
its second argument (the result handle); `none` models a `parseLog`
throw, which the loop skips. -/
structure LogEntry where
  address : String
  parsed : Option (String × String)
  deriving Repr, DecidableEq

/-- A transaction receipt as `checkRisk` uses it: its log list. -/
structure Receipt where
  logs : List LogEntry
  deriving Repr, DecidableEq

/-- Outcomes of the external calls awaited by the `checkRisk` run: the
`performRiskCheck` transaction and its receipt wait (with `none` standing
for a null receipt), the staleness probe after the wait, the signature
load (which may reject, or resolve to `null`) and the `userDecrypt` round
trip resolving to the boolean risk flag. -/
structure RiskOracle where
  sendAndWait : Except String (Option Receipt)
  probeAfterWait : Probe
  loadOrSign : Except String (Option Unit)
  userDecrypt : Except String Bool

/-- ASCII lowercasing of an address string, as JavaScript
`toLowerCase()` acts on the hex addresses compared here. -/
def lowerStr (s : String) : String := String.mk (s.data.map Char.toLower)

/-- The receipt-log scan of `checkRisk`: skip logs from other addresses
(compared case-insensitively), skip logs `parseLog` rejects, and stop at
the first parsed `RiskCheck` event, returning its handle argument. -/
def findRiskHandle (addr : String) : List LogEntry → Option String
  | [] => none
  | l :: rest =>
    if lowerStr l.address ≠ lowerStr addr then findRiskHandle addr rest
    else
      match l.parsed with
      | some p => if p.fst = "RiskCheck" then some p.snd else findRiskHandle addr rest
      | none => findRiskHandle addr rest

/-- Synchronous part of `checkRisk`: its re-entry guard tests only its
own busy flag, then the dependency guard, busy-flag set and start
message. -/
def checkRisk (deps : Deps) (user : String) (s : HookState) :
    HookState × Option String :=
  if s.isCheckingRisk then (s, none)
  else
    match deps.contractAddress with
    | some addr =>
      if !deps.hasInstance || !deps.hasSigner then (s, none)
      else
        ({ s with isCheckingRisk := true,
                  message := "Checking risk for " ++ user ++ "..." },
         some addr)
    | none => (s, none)

/-- Terminal step of a `checkRisk` run path that sets a message: clears
the busy flag and reports the message it set. -/
def riskFinish (s : HookState) (m : String) : HookState × Option String :=
  ({ s with message := m, isCheckingRisk := false }, some m)

/-- Asynchronous run of `checkRisk`.  The second component is the message
the run sets, if any: every path through the source body sets at most one
message, and the path where the signature load resolves to `null` sets
none at all (the `if (sig)` block has no `else`). -/
def checkRiskRun (addr : String) (o : RiskOracle) (s : HookState) :
    HookState × Option String :=
  match o.sendAndWait with
  | Except.error e => riskFinish s ("Risk check failed: " ++ e)
  | Except.ok rcpt =>
    if isStale addr o.probeAfterWait then riskFinish s ("Ignore risk check")
    else
      match rcpt with
      | none => riskFinish s ("Transaction receipt is null")
      | some receipt =>
        match findRiskHandle addr receipt.logs with
        | none => riskFinish s ("Risk check transaction succeeded but event not found")
        | some h =>
          let s1 := { s with riskFlagHandle := some h }
          match o.loadOrSign with
          | Except.error e => riskFinish s1 ("Risk check failed: " ++ e)
          | Except.ok none => ({ s1 with isCheckingRisk := false }, none)
          | Except.ok (some _) =>
            match o.userDecrypt with
            | Except.error e => riskFinish s1 ("Risk check failed: " ++ e)
            | Except.ok flag =>
              let cv : ClearValueType := { handle := h, clear := ClearVal.bool flag }
              let s2 := { s1 with clearRiskFlag := some cv }
              riskFinish s2 ("Risk check completed: " ++
                (if flag then "RISK DETECTED" else "SAFE"))

/-- A whole `checkRisk` invocation: the synchronous entry followed, when
the guards pass, by the asynchronous run. -/
def checkRiskFlow (deps : Deps) (user : String) (o : RiskOracle) (s : HookState) :
    HookState × Option String :=
  match checkRisk deps user s with
  | (s1, some addr) => checkRiskRun addr o s1
  | (s1, none) => (s1, none)

/-! The derived view values (hook line `isBalanceDecrypted`, demo page
`renderWalletView`). -/

/-- The hook's `isBalanceDecrypted`: the balance handle is truthy and
equals the handle recorded with the cached clear balance. -/
def isBalanceDecrypted (s : HookState) : Bool :=
  match s.balanceHandle with
  | none => false
  | some h =>
    h != "" && (match s.clearBalance with
                | some cv => h == cv.handle
                | none => false)

/-- The text the wallet view renders for the Decrypted Balance row: the
cached clear value whenever it is defined, with no handle comparison. -/
def renderDecryptedBalance (s : HookState) : String :=
  match s.clearBalance with
  | some cv => showClear cv.clear ++ " tokens"
  | none => "Click \"Decrypt\" to view"

/-- Success predicate of a mutating-operation run: encryption resolved,
the session was fresh at the pre-submission check, the submission and the
receipt wait resolved, and the session was still fresh at the
post-confirmation check. -/
def isOkE {α : Type} : Except String α → Bool
  | Except.ok _ => true
  | Except.error _ => false

/-- Combined success condition of a mutating-operation run. -/
def mutOk (addr : String) (o : MutOracle) : Bool :=
  isOkE o.encrypt && !isStale addr o.probeAfterEncrypt && isOkE o.sendTx &&
    isOkE o.waitReceipt && !isStale addr o.probeAfterWait

/-! Concrete fixtures used by the closed instances below. -/

/-- An idle hook state with nothing fetched and no cached values. -/
def s0 : HookState :=
  { balanceHandle := none, totalSupplyHandle := none, riskThresholdHandle := none,
    riskFlagHandle := none, clearBalance := none, clearBalanceRef := none,
    clearRiskThreshold := none, clearRiskFlag := none,
    isRefreshing := false, isDecrypting := false, isIssuing := false,
    isTransferring := false, isCheckingRisk := false, isUpdatingThreshold := false,
    message := "" }

/-- Dependencies with every collaborator present and contract `0xC`. -/
def deps0 : Deps :=
  { contractAddress := some ("0xC"), chainId := some 31337, hasInstance := true,
    hasSigner := true, hasReadonlyProvider := true, userAddress := some ("0xU") }

/-- A probe taken while the session is unchanged. -/
def freshProbe : Probe :=
  { refAddress := some ("0xC"), sameChain := true, sameSigner := true }

/-- A probe taken after the user switched accounts: same chain, same
contract address, different signer. -/
def signerSwitchProbe : Probe :=
  { refAddress := some ("0xC"), sameChain := true, sameSigner := false }

/-- A probe taken after the user switched networks. -/
def chainSwitchProbe : Probe :=
  { refAddress := some ("0xC"), sameChain := false, sameSigner := true }

/-- Handles returned by one parallel fetch. -/
def fetched0 : FetchedHandles :=
  { balance := "0xB1", totalSupply := "0xT1", riskThreshold := "0xR1" }

/-- A captured decryption spec for contract `0xC` and handle `0xH1`. -/
def decSpec0 : DecSpec := { addr := "0xC", handle := "0xH1" }

/-- A decryption oracle where every call succeeds and the session stays
fresh; the decrypted value is 7. -/
def decOkOracle : DecOracle :=
  { loadOrSign := Except.ok (some ()), probeAfterSig := freshProbe,
    userDecrypt := Except.ok (ClearVal.int 7), probeAfterDecrypt := freshProbe }

/-- A decryption oracle whose `userDecrypt` round trip rejects. -/
def decThrowOracle : DecOracle :=
  { loadOrSign := Except.ok (some ()), probeAfterSig := freshProbe,
    userDecrypt := Except.error ("RPC error"), probeAfterDecrypt := freshProbe }

/-- A decryption oracle where the session goes stale (signer switch)
during the `userDecrypt` round trip. -/
def decStaleOracle : DecOracle :=
  { loadOrSign := Except.ok (some ()), probeAfterSig := freshProbe,
    userDecrypt := Except.ok (ClearVal.int 7), probeAfterDecrypt := signerSwitchProbe }

/-- A mutating-operation oracle where every call succeeds and the session
stays fresh. -/
def mutOkOracle : MutOracle :=
  { encrypt := Except.ok (), probeAfterEncrypt := freshProbe,
    sendTx := Except.ok ("0xTX"), waitReceipt := Except.ok (some 1),
    probeAfterWait := freshProbe }

/-- A mutating-operation oracle where the transaction confirms but the
signer has changed by the post-confirmation check. -/
def mutStaleOracle : MutOracle :=
  { encrypt := Except.ok (), probeAfterEncrypt := freshProbe,
    sendTx := Except.ok ("0xTX"), waitReceipt := Except.ok (some 1),
    probeAfterWait := signerSwitchProbe }

/-- A receipt holding one parsed `RiskCheck` event from contract `0xC`. -/
def riskReceipt0 : Receipt :=
  { logs := [{ address := "0xC", parsed := some (("RiskCheck", "0xFLAG")) }] }

/-- A risk-check oracle where the transaction succeeds and the event is
found, but the decryption-signature load resolves to `null`. -/
def nullSigRiskOracle : RiskOracle :=
  { sendAndWait := Except.ok (some riskReceipt0),
    probeAfterWait := freshProbe,
    loadOrSign := Except.ok none,
    userDecrypt := Except.ok true }

/-- The hook state after a transfer and refresh: the fetched balance
handle is now `0xH2`, while the clear-value cache still records the value
42 decrypted under the previous handle `0xH1`. -/
def staleClearState : HookState :=
  { s0 with balanceHandle := some ("0xH2"),
            clearBalance := some ({ handle := "0xH1", clear := ClearVal.int 42 }) }

/-! Helper lemmas shared by the claim theorems. -/

/-- A refresh completion whose chain or contract address no longer
matches leaves all three fetched handles unchanged. -/
theorem refreshBalanceSettle_discard (a : String) (p : Probe)
    (r : Except String FetchedHandles) (s : HookState)
    (h : p.sameChain = false ∨ p.refAddress ≠ some a) :
    (refreshBalanceSettle a p r s).balanceHandle = s.balanceHandle ∧
    (refreshBalanceSettle a p r s).totalSupplyHandle = s.totalSupplyHandle ∧
    (refreshBalanceSettle a p r s).riskThresholdHandle = s.riskThresholdHandle := by
  cases r with
  | ok fh =>
    rcases h with h | h
    · simp [refreshBalanceSettle, h]
    · simp [refreshBalanceSettle, h]
  | error e => simp [refreshBalanceSettle]

/-- A `decryptBalance` run that observes a stale session at either check
point never writes the clear-balance cache. -/
theorem decryptBalanceRun_stale_discard (spec : DecSpec) (o : DecOracle) (s : HookState)
    (h : isStale spec.addr o.probeAfterSig = true ∨
         isStale spec.addr o.probeAfterDecrypt = true) :
    (decryptBalanceRun spec o s).1.clearBalance = s.clearBalance ∧
    (decryptBalanceRun spec o s).1.clearBalanceRef = s.clearBalanceRef := by
  cases hl : o.loadOrSign with
  | error e => simp [decryptBalanceRun, hl]
  | ok osig =>
    cases osig with
    | none => simp [decryptBalanceRun, hl]
    | some u =>
      cases h1 : isStale spec.addr o.probeAfterSig with
      | true => simp [decryptBalanceRun, hl, h1]
      | false =>
        have h2 : isStale spec.addr o.probeAfterDecrypt = true := by
          cases h with
          | inl h => rw [h1] at h; exact Bool.noConfusion h
          | inr h => exact h
        cases hd : o.userDecrypt with
        | error e => simp [decryptBalanceRun, hl, h1, hd]
        | ok v => simp [decryptBalanceRun, hl, h1, hd, h2]

/-- The `issue` run triggers the refresh exactly when every external call
succeeded and both staleness checks passed. -/
theorem issueRun_refresh_count (a : String) (o : MutOracle) (s : HookState) :
    (issueRun a o s).2.count ExtCall.refresh = if mutOk a o then 1 else 0 := by
  rcases o with ⟨enc, p1, snd, wt, p2⟩
  cases enc with
  | error e => simp [issueRun, mutOk, isOkE]; decide
  | ok u =>
    cases h1 : isStale a p1 with
    | true => simp [issueRun, mutOk, isOkE, h1]; decide
    | false =>
      cases snd with
      | error e => simp [issueRun, mutOk, isOkE, h1]; decide
      | ok tx =>
        cases wt with
        | error e => simp [issueRun, mutOk, isOkE, h1]; decide
        | ok st =>
          cases h2 : isStale a p2 with
          | true => simp [issueRun, mutOk, isOkE, h1, h2]; decide
          | false => simp [issueRun, mutOk, isOkE, h1, h2]; decide

/-- The `transfer` run triggers the refresh exactly when every external
call succeeded and both staleness checks passed. -/
theorem transferRun_refresh_count (a : String) (o : MutOracle) (s : HookState) :
    (transferRun a o s).2.count ExtCall.refresh = if mutOk a o then 1 else 0 := by
  rcases o with ⟨enc, p1, snd, wt, p2⟩
  cases enc with
  | error e => simp [transferRun, mutOk, isOkE]; decide
  | ok u =>
    cases h1 : isStale a p1 with
    | true => simp [transferRun, mutOk, isOkE, h1]; decide
    | false =>
      cases snd with
      | error e => simp [transferRun, mutOk, isOkE, h1]; decide
      | ok tx =>
        cases wt with
        | error e => simp [transferRun, mutOk, isOkE, h1]; decide
        | ok st =>
          cases h2 : isStale a p2 with
          | true => simp [transferRun, mutOk, isOkE, h1, h2]; decide
          | false => simp [transferRun, mutOk, isOkE, h1, h2]; decide

/-- The `updateRiskThreshold` run triggers the refresh exactly when every
external call succeeded and both staleness checks passed. -/
theorem updateRiskThresholdRun_refresh_count (a : String) (o : MutOracle) (s : HookState) :
    (updateRiskThresholdRun a o s).2.count ExtCall.refresh = if mutOk a o then 1 else 0 := by
  rcases o with ⟨enc, p1, snd, wt, p2⟩
  cases enc with
  | error e => simp [updateRiskThresholdRun, mutOk, isOkE]; decide
  | ok u =>
    cases h1 : isStale a p1 with
    | true => simp [updateRiskThresholdRun, mutOk, isOkE, h1]; decide
    | false =>
      cases snd with
      | error e => simp [updateRiskThresholdRun, mutOk, isOkE, h1]; decide
      | ok tx =>
        cases wt with
        | error e => simp [updateRiskThresholdRun, mutOk, isOkE, h1]; decide
        | ok st =>
          cases h2 : isStale a p2 with
          | true => simp [updateRiskThresholdRun, mutOk, isOkE, h1, h2]; decide
          | false => simp [updateRiskThresholdRun, mutOk, isOkE, h1, h2]; decide

/-- The `finally` block of the `decryptBalance` run clears the busy flag
on every path, including the path where a rejection escapes. -/
theorem decryptBalanceRun_resets_flag (spec : DecSpec) (o : DecOracle) (s : HookState) :
    (decryptBalanceRun spec o s).1.isDecrypting = false := by
  cases hl : o.loadOrSign with
  | error e => simp [decryptBalanceRun, hl]
  | ok osig =>
    cases osig with
    | none => simp [decryptBalanceRun, hl]
    | some u =>
      cases h1 : isStale spec.addr o.probeAfterSig with
      | true => simp [decryptBalanceRun, hl, h1]
      | false =>
        cases hd : o.userDecrypt with
        | error e => simp [decryptBalanceRun, hl, h1, hd]
        | ok v =>
          cases h2 : isStale spec.addr o.probeAfterDecrypt with
          | true => simp [decryptBalanceRun, hl, h1, hd, h2]
          | false => simp [decryptBalanceRun, hl, h1, hd, h2]

/-- The `finally` block of the `decryptRiskThreshold` run clears the busy
flag on every path. -/
theorem decryptRiskThresholdRun_resets_flag (a : String) (o : ThreshOracle)
    (s : HookState) : (decryptRiskThresholdRun a o s).isDecrypting = false := by
  cases hg : o.grantTx with
  | error e => simp [decryptRiskThresholdRun, hg]
  | ok u =>
    cases h1 : isStale a o.probeAfterGrant with
    | true => simp [decryptRiskThresholdRun, hg, h1]
    | false =>
      cases hf : o.fetchHandle with
      | error e => simp [decryptRiskThresholdRun, hg, h1, hf]
      | ok h =>
        cases hl : o.loadOrSign with
        | error e => simp [decryptRiskThresholdRun, hg, h1, hf, hl]
        | ok osig =>
          cases osig with
          | none => simp [decryptRiskThresholdRun, hg, h1, hf, hl]
          | some u2 =>
            cases h2 : isStale a o.probeAfterSig with
            | true => simp [decryptRiskThresholdRun, hg, h1, hf, hl, h2]
            | false =>
              cases hd : o.userDecrypt with
              | error e => simp [decryptRiskThresholdRun, hg, h1, hf, hl, h2, hd]
              | ok v => simp [decryptRiskThresholdRun, hg, h1, hf, hl, h2, hd]

/-- The `finally` block of the `issue` run clears the busy flag on every
path. -/
theorem issueRun_resets_flag (a : String) (o : MutOracle) (s : HookState) :
    (issueRun a o s).1.isIssuing = false := by
  rcases o with ⟨enc, p1, snd, wt, p2⟩
  cases enc with
  | error e => simp [issueRun]
  | ok u =>
    cases h1 : isStale a p1 with
    | true => simp [issueRun, h1]
    | false =>
      cases snd with
      | error e => simp [issueRun, h1]
      | ok tx =>
        cases wt with
        | error e => simp [issueRun, h1]
        | ok st =>
          cases h2 : isStale a p2 with
          | true => simp [issueRun, h1, h2]
          | false => simp [issueRun, h1, h2]

/-- The `finally` block of the `transfer` run clears the busy flag on
every path. -/
theorem transferRun_resets_flag (a : String) (o : MutOracle) (s : HookState) :
    (transferRun a o s).1.isTransferring = false := by
  rcases o with ⟨enc, p1, snd, wt, p2⟩
  cases enc with
  | error e => simp [transferRun]
  | ok u =>
    cases h1 : isStale a p1 with
    | true => simp [transferRun, h1]
    | false =>
      cases snd with
      | error e => simp [transferRun, h1]
      | ok tx =>
        cases wt with
        | error e => simp [transferRun, h1]
        | ok st =>
          cases h2 : isStale a p2 with
          | true => simp [transferRun, h1, h2]
          | false => simp [transferRun, h1, h2]

/-- The `finally` block of the `updateRiskThreshold` run clears the busy
flag on every path. -/
theorem updateRiskThresholdRun_resets_flag (a : String) (o : MutOracle) (s : HookState) :
    (updateRiskThresholdRun a o s).1.isUpdatingThreshold = false := by
  rcases o with ⟨enc, p1, snd, wt, p2⟩
  cases enc with
  | error e => simp [updateRiskThresholdRun]
  | ok u =>
    cases h1 : isStale a p1 with
    | true => simp [updateRiskThresholdRun, h1]
    | false =>
      cases snd with
      | error e => simp [updateRiskThresholdRun, h1]
      | ok tx =>
        cases wt with
        | error e => simp [updateRiskThresholdRun, h1]
        | ok st =>
          cases h2 : isStale a p2 with
          | true => simp [updateRiskThresholdRun, h1, h2]
          | false => simp [updateRiskThresholdRun, h1, h2]

/-- The `finally` block of the `checkRisk` run clears the busy flag on
every path, including the silent null-signature path. -/
theorem checkRiskRun_resets_flag (a : String) (o : RiskOracle) (s : HookState) :
    (checkRiskRun a o s).1.isCheckingRisk = false := by
  cases ht : o.sendAndWait with
  | error e => simp [checkRiskRun, riskFinish, ht]
  | ok rcpt =>
    cases h1 : isStale a o.probeAfterWait with
    | true => simp [checkRiskRun, riskFinish, ht, h1]
    | false =>
      cases rcpt with
      | none => simp [checkRiskRun, riskFinish, ht, h1]
      | some receipt =>
        cases hf : findRiskHandle a receipt.logs with
        | none => simp [checkRiskRun, riskFinish, ht, h1, hf]
        | some h =>
          cases hl : o.loadOrSign with
          | error e => simp [checkRiskRun, riskFinish, ht, h1, hf, hl]
          | ok osig =>
            cases osig with
            | none => simp [checkRiskRun, riskFinish, ht, h1, hf, hl]
            | some u =>
              cases hd : o.userDecrypt with
              | error e => simp [checkRiskRun, riskFinish, ht, h1, hf, hl, hd]
              | ok flag => simp [checkRiskRun, riskFinish, ht, h1, hf, hl, hd]

/-- The `issue` run performs the fixed delay and then the encryption
before anything else. -/
theorem issueRun_delay_before_encrypt (a : String) (o : MutOracle) (s : HookState) :
    (issueRun a o s).2.take 2 = [ExtCall.delay 100, ExtCall.encryptInput] := by
  rcases o with ⟨enc, p1, snd, wt, p2⟩
  cases enc with
  | error e => simp [issueRun]
  | ok u =>
    cases h1 : isStale a p1 with
    | true => simp [issueRun, h1]
    | false =>
      cases snd with
      | error e => simp [issueRun, h1]
      | ok tx =>
        cases wt with
        | error e => simp [issueRun, h1]
        | ok st =>
          cases h2 : isStale a p2 with
          | true => simp [issueRun, h1, h2]
          | false => simp [issueRun, h1, h2]

/-- The `transfer` run performs the fixed delay and then the encryption
before anything else. -/
theorem transferRun_delay_before_encrypt (a : String) (o : MutOracle) (s : HookState) :
    (transferRun a o s).2.take 2 = [ExtCall.delay 100, ExtCall.encryptInput] := by
  rcases o with ⟨enc, p1, snd, wt, p2⟩
  cases enc with
  | error e => simp [transferRun]
  | ok u =>
    cases h1 : isStale a p1 with
    | true => simp [transferRun, h1]
    | false =>
      cases snd with
      | error e => simp [transferRun, h1]
      | ok tx =>
        cases wt with
        | error e => simp [transferRun, h1]
        | ok st =>
          cases h2 : isStale a p2 with
          | true => simp [transferRun, h1, h2]
          | false => simp [transferRun, h1, h2]

/-- The `updateRiskThreshold` run performs the fixed delay and then the
encryption before anything else. -/
theorem updateRiskThresholdRun_delay_before_encrypt (a : String) (o : MutOracle)
    (s : HookState) :
    (updateRiskThresholdRun a o s).2.take 2 = [ExtCall.delay 100, ExtCall.encryptInput] := by
  rcases o with ⟨enc, p1, snd, wt, p2⟩
  cases enc with
  | error e => simp [updateRiskThresholdRun]
  | ok u =>
    cases h1 : isStale a p1 with
    | true => simp [updateRiskThresholdRun, h1]
    | false =>
      cases snd with
      | error e => simp [updateRiskThresholdRun, h1]
      | ok tx =>
        cases wt with
        | error e => simp [updateRiskThresholdRun, h1]
        | ok st =>
          cases h2 : isStale a p2 with
          | true => simp [updateRiskThresholdRun, h1, h2]
          | false => simp [updateRiskThresholdRun, h1, h2]

/-- A second `issue` while one is in flight returns with no effect. -/
theorem issue_reentry_guard (deps : Deps) (toAddr : String) (amount : Int)
    (s : HookState) (h : s.isIssuing = true) :
    issue deps toAddr amount s = (s, none) := by
  simp [issue, h]

/-- A second `transfer` while one is in flight returns with no effect. -/
theorem transfer_reentry_guard (deps : Deps) (toAddr : String) (amount : Int)
    (s : HookState) (h : s.isTransferring = true) :
    transfer deps toAddr amount s = (s, none) := by
  simp [transfer, h]

/-- A second `updateRiskThreshold` while one is in flight returns with no
effect. -/
theorem updateRiskThreshold_reentry_guard (deps : Deps) (t : Int)
    (s : HookState) (h : s.isUpdatingThreshold = true) :
    updateRiskThreshold deps t s = (s, none) := by
  simp [updateRiskThreshold, h]

/-- When `issue` starts its run, its busy flag is set. -/
theorem issue_sets_flag (deps : Deps) (toAddr : String) (amount : Int) (s : HookState)
    (h : (issue deps toAddr amount s).2.isSome = true) :
    (issue deps toAddr amount s).1.isIssuing = true := by
  rcases deps with ⟨ca, ci, hi, hsg, hp, ua⟩
  by_cases hb : (s.isRefreshing || s.isIssuing) = true
  · simp [issue, hb] at h
  · cases ca with
    | none => simp [issue, hb] at h
    | some addr =>
      by_cases hg : (hi = false ∨ hsg = false ∨ amount ≤ 0)
      · simp [issue, hb, hg] at h
      · simp [issue, hb, hg]

/-- When `transfer` starts its run, its busy flag is set. -/
theorem transfer_sets_flag (deps : Deps) (toAddr : String) (amount : Int) (s : HookState)
    (h : (transfer deps toAddr amount s).2.isSome = true) :
    (transfer deps toAddr amount s).1.isTransferring = true := by
  rcases deps with ⟨ca, ci, hi, hsg, hp, ua⟩
  by_cases hb : (s.isRefreshing || s.isTransferring) = true
  · simp [transfer, hb] at h
  · cases ca with
    | none => simp [transfer, hb] at h
    | some addr =>
      by_cases hg : (hi = false ∨ hsg = false ∨ amount ≤ 0)
      · simp [transfer, hb, hg] at h
      · simp [transfer, hb, hg]

/-- When `updateRiskThreshold` starts its run, its busy flag is set. -/
theorem updateRiskThreshold_sets_flag (deps : Deps) (t : Int) (s : HookState)
    (h : (updateRiskThreshold deps t s).2.isSome = true) :
    (updateRiskThreshold deps t s).1.isUpdatingThreshold = true := by
  rcases deps with ⟨ca, ci, hi, hsg, hp, ua⟩
  by_cases hb : (s.isRefreshing || s.isUpdatingThreshold) = true
  · simp [updateRiskThreshold, hb] at h
  · cases ca with
    | none => simp [updateRiskThreshold, hb] at h
    | some addr =>
      by_cases hg : (hi = false ∨ hsg = false ∨ t < 0)
      · simp [updateRiskThreshold, hb, hg] at h
      · simp [updateRiskThreshold, hb, hg]

/-! The claim theorems. -/

/-- Claim C1, counterexample: the claim states that every in-flight
request, including the balance refresh, is discarded when the signer has
changed by completion.  The refresh completion check consults only the
chain and the contract address: with the signer switched (and chain and
address unchanged) the fetched balance handle is still committed. -/
theorem c1_refresh_commits_despite_signer_switch :
    signerSwitchProbe.sameSigner = false ∧
    (refreshBalanceSettle ("0xC") signerSwitchProbe (Except.ok fetched0)
        { s0 with isRefreshing := true }).balanceHandle = some ("0xB1") := by
  decide

/-- Claim C1, amended: decryption, issue, transfer and threshold-update
results are discarded whenever the signer, the chain or the contract
address has changed at a staleness check; the balance-refresh completion
check consults only the chain and the contract address (a signer-only
change does not discard the fetched handles); in particular no decrypted
value obtained under one session is committed after a session change. -/
theorem c1_stale_requests_discarded :
    (∀ (a : String) (p : Probe) (r : Except String FetchedHandles) (s : HookState),
        p.sameChain = false ∨ p.refAddress ≠ some a →
        (refreshBalanceSettle a p r s).balanceHandle = s.balanceHandle ∧
        (refreshBalanceSettle a p r s).totalSupplyHandle = s.totalSupplyHandle ∧
        (refreshBalanceSettle a p r s).riskThresholdHandle = s.riskThresholdHandle) ∧
    (∀ (spec : DecSpec) (o : DecOracle) (s : HookState),
        isStale spec.addr o.probeAfterSig = true ∨
          isStale spec.addr o.probeAfterDecrypt = true →
        (decryptBalanceRun spec o s).1.clearBalance = s.clearBalance ∧
        (decryptBalanceRun spec o s).1.clearBalanceRef = s.clearBalanceRef) ∧
    (∀ (a : String) (o : MutOracle) (s : HookState),
        isStale a o.probeAfterEncrypt = true ∨ isStale a o.probeAfterWait = true →
        (issueRun a o s).2.count ExtCall.refresh = 0 ∧
        (transferRun a o s).2.count ExtCall.refresh = 0 ∧
        (updateRiskThresholdRun a o s).2.count ExtCall.refresh = 0) := by
  refine ⟨refreshBalanceSettle_discard, decryptBalanceRun_stale_discard, ?_⟩
  intro a o s h
  have hm : mutOk a o = false := by
    rcases h with h | h <;> simp [mutOk, h]
  refine ⟨?_, ?_, ?_⟩
  · rw [issueRun_refresh_count]; simp [hm]
  · rw [transferRun_refresh_count]; simp [hm]
  · rw [updateRiskThresholdRun_refresh_count]; simp [hm]

/-- Witness for the amended C1 at concrete stale sessions: a refresh
completing after a chain switch leaves the balance handle unchanged, a
decryption completing after a signer switch leaves the clear-balance
cache unchanged, and an issue confirming after a signer switch triggers
no refresh. -/
theorem c1_stale_requests_discarded_w :
    (refreshBalanceSettle ("0xC") chainSwitchProbe (Except.ok fetched0)
        { s0 with isRefreshing := true }).balanceHandle =
      ({ s0 with isRefreshing := true } : HookState).balanceHandle ∧
    (decryptBalanceRun decSpec0 decStaleOracle s0).1.clearBalance = s0.clearBalance ∧
    (issueRun ("0xC") mutStaleOracle s0).2.count ExtCall.refresh = 0 :=
  ⟨(c1_stale_requests_discarded.1 ("0xC") chainSwitchProbe (Except.ok fetched0)
      { s0 with isRefreshing := true } (Or.inl rfl)).1,
   (c1_stale_requests_discarded.2.1 decSpec0 decStaleOracle s0 (Or.inr (by decide))).1,
   (c1_stale_requests_discarded.2.2 ("0xC") mutStaleOracle s0 (Or.inr (by decide))).1⟩

/-- Claim C2 (code defect, evaluated at the failing input): a `checkRisk`
invocation that passes its guards, whose `performRiskCheck` transaction
succeeds with the `RiskCheck` event present and whose session stays
fresh, but whose decryption-signature load resolves to `null`, terminates
with no verdict and no terminal error message: the run sets no message at
all, leaving the initial progress message in place. -/
theorem c2_checkRisk_silent_when_signature_null :
    (checkRiskFlow deps0 ("0xU") nullSigRiskOracle s0).2 = none ∧
    (checkRiskFlow deps0 ("0xU") nullSigRiskOracle s0).1.message =
      "Checking risk for 0xU..." ∧
    (checkRiskFlow deps0 ("0xU") nullSigRiskOracle s0).1.riskFlagHandle =
      some ("0xFLAG") ∧
    (checkRiskFlow deps0 ("0xU") nullSigRiskOracle s0).1.isCheckingRisk = false := by
  decide

/-- Claim C3 (code defect, evaluated at the failing input): the
`decryptBalance` run has `try ... finally` with no `catch`, so a
rejection of the `userDecrypt` call escapes as an unhandled rejection;
the busy flag is still reset by `finally`, but no failure message is
produced (the message remains the pre-call progress text). -/
theorem c3_decryptBalance_fault_escapes :
    (decryptBalanceRun decSpec0 decThrowOracle { s0 with isDecrypting := true }).2 =
      some ("RPC error") ∧
    (decryptBalanceRun decSpec0 decThrowOracle
        { s0 with isDecrypting := true }).1.message =
      "Calling FHEVM userDecrypt..." ∧
    (decryptBalanceRun decSpec0 decThrowOracle
        { s0 with isDecrypting := true }).1.isDecrypting = false := by
  decide

/-- Claim C4 (code defect, evaluated at the failing input): with the
on-chain balance handle now `0xH2` and the clear-value cache still
recording 42 decrypted under `0xH1`, the wallet view still renders
"42 tokens" (it shows the cached clear value whenever defined, without
comparing handles), even though `isBalanceDecrypted` is false. -/
theorem c4_stale_clear_value_still_rendered :
    renderDecryptedBalance staleClearState = "42 tokens" ∧
    isBalanceDecrypted staleClearState = false ∧
    staleClearState.balanceHandle = some ("0xH2") ∧
    staleClearState.clearBalance = some ({ handle := "0xH1", clear := ClearVal.int 42 }) := by
  decide

/-- Claim C5: when `decryptBalance` is invoked past its entry guards with
the balance handle equal to the all-zero sentinel, it caches clear 0 for
that handle and returns without starting any asynchronous decryption (no
signature construction, no `userDecrypt` round trip) and without touching
any other part of the state. -/
theorem c5_zero_handle_shortcircuit (deps : Deps) (s : HookState) (a : String)
    (h1 : s.isRefreshing = false) (h2 : s.isDecrypting = false)
    (h3 : s.balanceHandle = some zeroHash)
    (h4 : deps.contractAddress = some a)
    (h5 : deps.hasInstance = true) (h6 : deps.hasSigner = true)
    (h7 : (match s.clearBalanceRef with
           | some cv => zeroHash == cv.handle
           | none => false) = false) :
    decryptBalance deps s =
      ({ s with clearBalance := some ({ handle := zeroHash, clear := ClearVal.int 0 }),
                clearBalanceRef := some ({ handle := zeroHash, clear := ClearVal.int 0 }) },
       none) := by
  simp [decryptBalance, h1, h2, h3, h4, h5, h6, h7]

/-- Witness for C5 at a concrete idle state holding the zero handle. -/
theorem c5_zero_handle_shortcircuit_w :
    decryptBalance deps0 { s0 with balanceHandle := some zeroHash } =
      ({ s0 with balanceHandle := some zeroHash,
                 clearBalance := some ({ handle := zeroHash, clear := ClearVal.int 0 }),
                 clearBalanceRef := some ({ handle := zeroHash, clear := ClearVal.int 0 }) },
       none) :=
  c5_zero_handle_shortcircuit deps0 { s0 with balanceHandle := some zeroHash }
    ("0xC") rfl rfl rfl rfl rfl rfl rfl

/-- Claim C6: each mutating operation triggers the balance refresh
exactly once when its transaction confirms and the session is fresh at
the post-confirmation check, and zero times on any failure or
staleness. -/
theorem c6_refresh_triggered_iff_success :
    ∀ (a : String) (o : MutOracle) (s : HookState),
      (issueRun a o s).2.count ExtCall.refresh = (if mutOk a o then 1 else 0) ∧
      (transferRun a o s).2.count ExtCall.refresh = (if mutOk a o then 1 else 0) ∧
      (updateRiskThresholdRun a o s).2.count ExtCall.refresh =
        (if mutOk a o then 1 else 0) :=
  fun a o s =>
    ⟨issueRun_refresh_count a o s, transferRun_refresh_count a o s,
     updateRiskThresholdRun_refresh_count a o s⟩

/-- Claim C7: a numeric decrypted balance strictly above the `int32`
maximum and at most the `uint32` maximum is stored shifted down by
2 to the power 32; a value at most the `int32` maximum is stored
unchanged; and the run stores exactly the fixed-up value in the
clear-balance cache. -/
theorem c7_twos_complement_fixup :
    (∀ n : Int, 2147483647 < n → n ≤ 4294967295 →
      fixupDecryptedValue (ClearVal.int n) = ClearVal.int (n - 4294967296)) ∧
    (∀ n : Int, n ≤ 2147483647 →
      fixupDecryptedValue (ClearVal.int n) = ClearVal.int n) ∧
    (∀ (spec : DecSpec) (o : DecOracle) (s : HookState) (v : ClearVal),
      o.loadOrSign = Except.ok (some ()) →
      o.userDecrypt = Except.ok v →
      isStale spec.addr o.probeAfterSig = false →
      isStale spec.addr o.probeAfterDecrypt = false →
      (decryptBalanceRun spec o s).1.clearBalance =
        some ({ handle := spec.handle, clear := fixupDecryptedValue v })) := by
  refine ⟨?_, ?_, ?_⟩
  · intro n ha hb
    simp [fixupDecryptedValue, ha, hb]
  · intro n ha
    have hn : ¬(2147483647 < n ∧ n ≤ 4294967295) := by omega
    simp [fixupDecryptedValue, hn]
  · intro spec o s v hl hd p1 p2
    simp [decryptBalanceRun, hl, hd, p1, p2]

/-- Witness for C7: 3000000000 is stored as -1294967296, 5 is stored
unchanged, and a fresh successful run stores the fixed-up value. -/
theorem c7_twos_complement_fixup_w :
    fixupDecryptedValue (ClearVal.int 3000000000) = ClearVal.int (-1294967296) ∧
    fixupDecryptedValue (ClearVal.int 5) = ClearVal.int 5 ∧
    (decryptBalanceRun decSpec0 decOkOracle s0).1.clearBalance =
      some ({ handle := "0xH1", clear := fixupDecryptedValue (ClearVal.int 7) }) :=
  ⟨c7_twos_complement_fixup.1 3000000000 (by decide) (by decide),
   c7_twos_complement_fixup.2.1 5 (by decide),
   c7_twos_complement_fixup.2.2 decSpec0 decOkOracle s0 (ClearVal.int 7)
     rfl rfl (by decide) (by decide)⟩

/-- Claim C8: each mutating operation is exclusive with itself: a second
invocation while its busy flag is set returns with no effect; whenever
the run is started the busy flag is set; and each run waits the fixed
delay before starting the encryption. -/
theorem c8_mutating_ops_self_exclusive :
    (∀ (deps : Deps) (toAddr : String) (amount : Int) (s : HookState),
        s.isIssuing = true → issue deps toAddr amount s = (s, none)) ∧
    (∀ (deps : Deps) (toAddr : String) (amount : Int) (s : HookState),
        s.isTransferring = true → transfer deps toAddr amount s = (s, none)) ∧
    (∀ (deps : Deps) (t : Int) (s : HookState),
        s.isUpdatingThreshold = true → updateRiskThreshold deps t s = (s, none)) ∧
    (∀ (deps : Deps) (toAddr : String) (amount : Int) (s : HookState),
        (issue deps toAddr amount s).2.isSome = true →
        (issue deps toAddr amount s).1.isIssuing = true) ∧
    (∀ (deps : Deps) (toAddr : String) (amount : Int) (s : HookState),
        (transfer deps toAddr amount s).2.isSome = true →
        (transfer deps toAddr amount s).1.isTransferring = true) ∧
    (∀ (deps : Deps) (t : Int) (s : HookState),
        (updateRiskThreshold deps t s).2.isSome = true →
        (updateRiskThreshold deps t s).1.isUpdatingThreshold = true) ∧
    (∀ (a : String) (o : MutOracle) (s : HookState),
        (issueRun a o s).2.take 2 = [ExtCall.delay 100, ExtCall.encryptInput]) ∧
    (∀ (a : String) (o : MutOracle) (s : HookState),
        (transferRun a o s).2.take 2 = [ExtCall.delay 100, ExtCall.encryptInput]) ∧
    (∀ (a : String) (o : MutOracle) (s : HookState),
        (updateRiskThresholdRun a o s).2.take 2 =
          [ExtCall.delay 100, ExtCall.encryptInput]) :=
  ⟨issue_reentry_guard, transfer_reentry_guard, updateRiskThreshold_reentry_guard,
   issue_sets_flag, transfer_sets_flag, updateRiskThreshold_sets_flag,
   issueRun_delay_before_encrypt, transferRun_delay_before_encrypt,
   updateRiskThresholdRun_delay_before_encrypt⟩

/-- Witness for C8 at concrete busy and idle states. -/
theorem c8_mutating_ops_self_exclusive_w :
    issue deps0 ("0xR") 5 { s0 with isIssuing := true } =
      ({ s0 with isIssuing := true }, none) ∧
    transfer deps0 ("0xR") 5 { s0 with isTransferring := true } =
      ({ s0 with isTransferring := true }, none) ∧
    updateRiskThreshold deps0 5 { s0 with isUpdatingThreshold := true } =
      ({ s0 with isUpdatingThreshold := true }, none) ∧
    (issue deps0 ("0xR") 5 s0).1.isIssuing = true ∧
    (transfer deps0 ("0xR") 5 s0).1.isTransferring = true ∧
    (updateRiskThreshold deps0 5 s0).1.isUpdatingThreshold = true ∧
    (issueRun ("0xC") mutOkOracle s0).2.take 2 =
      [ExtCall.delay 100, ExtCall.encryptInput] ∧
    (transferRun ("0xC") mutOkOracle s0).2.take 2 =
      [ExtCall.delay 100, ExtCall.encryptInput] ∧
    (updateRiskThresholdRun ("0xC") mutOkOracle s0).2.take 2 =
      [ExtCall.delay 100, ExtCall.encryptInput] :=
  ⟨c8_mutating_ops_self_exclusive.1 deps0 ("0xR") 5 { s0 with isIssuing := true } rfl,
   c8_mutating_ops_self_exclusive.2.1 deps0 ("0xR") 5
     { s0 with isTransferring := true } rfl,
   c8_mutating_ops_self_exclusive.2.2.1 deps0 5
     { s0 with isUpdatingThreshold := true } rfl,
   c8_mutating_ops_self_exclusive.2.2.2.1 deps0 ("0xR") 5 s0 (by decide),
   c8_mutating_ops_self_exclusive.2.2.2.2.1 deps0 ("0xR") 5 s0 (by decide),
   c8_mutating_ops_self_exclusive.2.2.2.2.2.1 deps0 5 s0 (by decide),
   c8_mutating_ops_self_exclusive.2.2.2.2.2.2.1 ("0xC") mutOkOracle s0,
   c8_mutating_ops_self_exclusive.2.2.2.2.2.2.2.1 ("0xC") mutOkOracle s0,
   c8_mutating_ops_self_exclusive.2.2.2.2.2.2.2.2 ("0xC") mutOkOracle s0⟩

/-- Claim C9: every asynchronous run resets its busy flag on every path
(success, staleness discard, caught error or escaping rejection), so no
operation wedges permanently. -/
theorem c9_busy_flag_reset_on_settle :
    (∀ (spec : DecSpec) (o : DecOracle) (s : HookState),
        (decryptBalanceRun spec o s).1.isDecrypting = false) ∧
    (∀ (a : String) (o : ThreshOracle) (s : HookState),
        (decryptRiskThresholdRun a o s).isDecrypting = false) ∧
    (∀ (a : String) (o : MutOracle) (s : HookState),
        (issueRun a o s).1.isIssuing = false) ∧
    (∀ (a : String) (o : MutOracle) (s : HookState),
        (transferRun a o s).1.isTransferring = false) ∧
    (∀ (a : String) (o : MutOracle) (s : HookState),
        (updateRiskThresholdRun a o s).1.isUpdatingThreshold = false) ∧
    (∀ (a : String) (o : RiskOracle) (s : HookState),
        (checkRiskRun a o s).1.isCheckingRisk = false) :=
  ⟨decryptBalanceRun_resets_flag, decryptRiskThresholdRun_resets_flag,
   issueRun_resets_flag, transferRun_resets_flag,
   updateRiskThresholdRun_resets_flag, checkRiskRun_resets_flag⟩

/-- Claim C10: `issue` and `transfer` return with no effect for every
amount at most 0; `updateRiskThreshold` returns with no effect for every
strictly negative threshold and accepts 0. -/
theorem c10_nonpositive_amount_guard :
    (∀ (deps : Deps) (toAddr : String) (amount : Int) (s : HookState),
        amount ≤ 0 → issue deps toAddr amount s = (s, none)) ∧
    (∀ (deps : Deps) (toAddr : String) (amount : Int) (s : HookState),
        amount ≤ 0 → transfer deps toAddr amount s = (s, none)) ∧
    (∀ (deps : Deps) (t : Int) (s : HookState),
        t < 0 → updateRiskThreshold deps t s = (s, none)) ∧
    updateRiskThreshold deps0 0 s0 =
      ({ s0 with isUpdatingThreshold := true,
                 message := "Updating risk threshold to 0..." }, some ("0xC")) := by
  refine ⟨?_, ?_, ?_, ?_⟩
  · intro deps toAddr amount s h
    rcases deps with ⟨ca, ci, hi, hsg, hp, ua⟩
    cases ca with
    | none => simp [issue]
    | some addr => simp [issue, h]
  · intro deps toAddr amount s h
    rcases deps with ⟨ca, ci, hi, hsg, hp, ua⟩
    cases ca with
    | none => simp [transfer]
    | some addr => simp [transfer, h]
  · intro deps t s h
    rcases deps with ⟨ca, ci, hi, hsg, hp, ua⟩
    cases ca with
    | none => simp [updateRiskThreshold]
    | some addr => simp [updateRiskThreshold, h]
  · decide

/-- Witness for C10 at concrete non-positive amounts. -/
theorem c10_nonpositive_amount_guard_w :
    issue deps0 ("0xR") 0 s0 = (s0, none) ∧
    issue deps0 ("0xR") (-3) s0 = (s0, none) ∧
    transfer deps0 ("0xR") 0 s0 = (s0, none) ∧
    updateRiskThreshold deps0 (-1) s0 = (s0, none) :=
  ⟨c10_nonpositive_amount_guard.1 deps0 ("0xR") 0 s0 (by decide),
   c10_nonpositive_amount_guard.1 deps0 ("0xR") (-3) s0 (by decide),
   c10_nonpositive_amount_guard.2.1 deps0 ("0xR") 0 s0 (by decide),
   c10_nonpositive_amount_guard.2.2.1 deps0 (-1) s0 (by decide)⟩

end StableMonitor
